import Mathlib

/-!
# Grade-gated authorization workflow: shallow embedding

A shallow embedding of the actor/document ("Bureaucrat"/"Form") subsystem of
the repository, covering:

* the error taxonomy (the per-class exception types of the C++ source, as one
  closed enumeration),
* `Bureaucrat` (actor) with grade validation and increment/decrement,
* `Form`/`AForm` (document) with its validating constructor, `beSigned`,
  `execute`, and the copy-assignment operator,
* the three concrete document variants with their fixed thresholds and
  `executeAction` bodies (console output, the ArtifactWriter collaborator of
  the shrubbery variant, the RandomSource collaborator of the robotomy
  variant),
* the `Intern` factory (`makeForm`).

C++ exceptions are modelled with `Except`; the mutation of `this` performed by
`beSigned` is modelled by returning the updated structure.  Console output and
file writes are modelled as explicit effect lists.
-/

/-- The error kinds of the subsystem.  The C++ source declares one nested
    exception class per site (`Bureaucrat::GradeTooHighException`,
    `AForm::GradeTooLowException`, `Intern::FormNotFoundException`, ...); they
    carry no data, so they are embedded as one closed enumeration. -/
inductive FormError where
  | GradeTooHigh
  | GradeTooLow
  | FormNotSigned
  | FormNotFound
deriving DecidableEq, Repr

/-- An actor: `Bureaucrat` of `Bureaucrat.hpp` — a constant `_name` and a
    mutable `int _grade`. -/
structure Bureaucrat where
  name : String
  grade : Int
deriving DecidableEq, Repr

/-- Modelled from the spec: `Bureaucrat.cpp` is not in the source tree (only
    `Bureaucrat.hpp` declares the class); the parametric constructor is
    modelled from spec §4.1: fails `GradeTooHigh` if `grade < 1`, fails
    `GradeTooLow` if `grade > 150`, otherwise returns an Actor with that
    grade. -/
def Bureaucrat.construct (name : String) (grade : Int) : Except FormError Bureaucrat :=
  if grade < 1 then .error .GradeTooHigh
  else if grade > 150 then .error .GradeTooLow
  else .ok ⟨name, grade⟩

/-- Modelled from the spec: `Bureaucrat.cpp` is not in the source tree;
    `incrementGrade` is modelled from spec §4.1: computes `grade - 1`, fails
    `GradeTooHigh` if the result is `< 1`, otherwise commits the decrease. -/
def Bureaucrat.incrementGrade (b : Bureaucrat) : Except FormError Bureaucrat :=
  if b.grade - 1 < 1 then .error .GradeTooHigh
  else .ok { b with grade := b.grade - 1 }

/-- Modelled from the spec: `Bureaucrat.cpp` is not in the source tree;
    `decrementGrade` is modelled from spec §4.1: computes `grade + 1`, fails
    `GradeTooLow` if the result is `> 150`, otherwise commits. -/
def Bureaucrat.decrementGrade (b : Bureaucrat) : Except FormError Bureaucrat :=
  if b.grade + 1 > 150 then .error .GradeTooLow
  else .ok { b with grade := b.grade + 1 }

/-- A document: `AForm` of `AForm.hpp` (identically `Form` of `Form.hpp`) —
    a constant `_name`, a mutable `bool _signed`, and constant
    `int _gradeToSign`, `int _gradeToExecute`. -/
structure AForm where
  name : String
  isSigned : Bool
  gradeToSign : Int
  gradeToExecute : Int
deriving DecidableEq, Repr

/-- `AForm::AForm(const std::string&, int, int)` of `AForm.cpp` lines 10-18:
    initializes `_signed` to `false`, then
    `if (gradeToSign < 1 || gradeToExecute < 1) throw GradeTooHighException();`
    `if (gradeToSign > 150 || gradeToExecute > 150) throw GradeTooLowException();`.
    A throwing constructor yields no object, hence `Except`. -/
def AForm.construct (name : String) (gradeToSign gradeToExecute : Int) :
    Except FormError AForm :=
  if gradeToSign < 1 ∨ gradeToExecute < 1 then .error .GradeTooHigh
  else if gradeToSign > 150 ∨ gradeToExecute > 150 then .error .GradeTooLow
  else .ok ⟨name, false, gradeToSign, gradeToExecute⟩

/-- `AForm::beSigned` of `AForm.cpp` lines 66-71 (identically `Form::beSigned`
    of `Form.cpp`):
    `if (bureaucrat.getGrade() > _gradeToSign) throw GradeTooLowException();`
    `_signed = true;` -/
def AForm.beSigned (f : AForm) (bureaucrat : Bureaucrat) : Except FormError AForm :=
  if bureaucrat.grade > f.gradeToSign then .error .GradeTooLow
  else .ok { f with isSigned := true }

/-- `AForm::execute` of `AForm.cpp` lines 73-80:
    `if (!_signed) throw FormNotSignedException();`
    `if (executor.getGrade() > _gradeToExecute) throw GradeTooLowException();`
    `executeAction();`
    The virtual `executeAction` hook is a parameter: its result (of any type,
    possibly an error) is returned unchanged when both checks pass. -/
def AForm.execute {α : Type} (f : AForm) (executor : Bureaucrat)
    (executeAction : Except FormError α) : Except FormError α :=
  if f.isSigned = false then .error .FormNotSigned
  else if executor.grade > f.gradeToExecute then .error .GradeTooLow
  else executeAction

/-- `AForm::operator=` of `AForm.cpp` lines 27-37 (identically
    `Form::operator=` of `Form.cpp`): `_name`, `_gradeToSign` and
    `_gradeToExecute` are const and not assigned; only
    `_signed = other._signed;` runs.  The `this != &other` self-assignment
    guard of the source is a no-op under value semantics: when the two
    arguments are the same value, copying the flag changes nothing. -/
def AForm.assign (self other : AForm) : AForm :=
  { self with isSigned := other.isSigned }

/-- The closed set of concrete document variants (the three `AForm`
    subclasses). -/
inductive FormKind where
  | shrubberyCreation
  | robotomyRequest
  | presidentialPardon
deriving DecidableEq, Repr

/-- A concrete variant instance: the `AForm` base subobject, the dynamic type,
    and the `_target` field every subclass adds. -/
structure VariantForm where
  kind : FormKind
  base : AForm
  target : String
deriving DecidableEq, Repr

/-- `ShrubberyCreationForm::ShrubberyCreationForm(const std::string&)` of
    `ShrubberyCreationForm.cpp` lines 9-13: delegates to
    `AForm("Shrubbery Creation Form", 145, 137)` and stores `_target`. -/
def ShrubberyCreationForm.construct (target : String) : Except FormError VariantForm :=
  (AForm.construct "Shrubbery Creation Form" 145 137).map
    (fun base => ⟨.shrubberyCreation, base, target⟩)

/-- `RobotomyRequestForm::RobotomyRequestForm(const std::string&)` of
    `RobotomyRequestForm.cpp` lines 9-13: delegates to
    `AForm("Robotomy Request Form", 72, 45)` and stores `_target`. -/
def RobotomyRequestForm.construct (target : String) : Except FormError VariantForm :=
  (AForm.construct "Robotomy Request Form" 72 45).map
    (fun base => ⟨.robotomyRequest, base, target⟩)

/-- `PresidentialPardonForm::PresidentialPardonForm(const std::string&)` of
    `PresidentialPardonForm.cpp` lines 9-13: delegates to
    `AForm("Presidential Pardon Form", 25, 5)` and stores `_target`. -/
def PresidentialPardonForm.construct (target : String) : Except FormError VariantForm :=
  (AForm.construct "Presidential Pardon Form" 25 5).map
    (fun base => ⟨.presidentialPardon, base, target⟩)

/-- `Intern::makeForm` of `Intern.cpp` lines 45-70: scans the array
    `{"shrubbery creation", "robotomy request", "presidential pardon"}` in
    order, calling the matching member-function pointer
    (`createShrubberyCreationForm` etc., each a `new` of the variant) on the
    first hit; if no name matches, throws `FormNotFoundException`.  The
    sequential array scan is embedded as the equivalent if-chain. -/
def Intern.makeForm (formName target : String) : Except FormError VariantForm :=
  if formName = "shrubbery creation" then ShrubberyCreationForm.construct target
  else if formName = "robotomy request" then RobotomyRequestForm.construct target
  else if formName = "presidential pardon" then PresidentialPardonForm.construct target
  else .error .FormNotFound

/-- The fixed lines `ShrubberyCreationForm::executeAction` streams into the
    artifact file, in order (`ShrubberyCreationForm.cpp` lines 57-80); each
    `<< std::endl` yields one line, including the two bare `file << std::endl`
    empty lines.  The tree-emoji lines reproduce the characters stored in the
    source file. -/
def shrubberyTreeLines : List String :=
  [ "       ^",
    "      ^^^",
    "     ^^^^^",
    "    ^^^^^^^",
    "   ^^^^^^^^^",
    "  ^^^^^^^^^^^",
    " ^^^^^^^^^^^^^",
    "^^^^^^^^^^^^^^^",
    "       |||",
    "       |||",
    "",
    "      /\\",
    "     /  \\",
    "    /____\\",
    "   /      \\",
    "  /        \\",
    " /__________\\",
    "      ||",
    "      ||",
    "",
    "    ðŸŒ²ðŸŒ³ðŸŒ²",
    "   ðŸŒ³ðŸŒ²ðŸŒ³ðŸŒ²",
    "  ðŸŒ²ðŸŒ³ðŸŒ²ðŸŒ³ðŸŒ²",
    "     |||" ]

/-- The full content written to the artifact file: every fixed line followed
    by a newline. -/
def shrubberyTreeContent : String :=
  String.join (shrubberyTreeLines.map (fun line => line ++ "\n"))

/-- The observable effects of one `executeAction` call: file writes performed
    through the ArtifactWriter collaborator (filename-content pairs, in
    order) and console lines printed. -/
structure ActionEffects where
  writes : List (String × String)
  console : List String
deriving DecidableEq, Repr

/-- `ShrubberyCreationForm::executeAction` of `ShrubberyCreationForm.cpp`
    lines 44-82: computes `filename = _target + "_shrubbery"`, opens the file
    (the ArtifactWriter collaborator; `openOk` is whether `file.is_open()`
    holds); on failure prints `Error: Could not create file <filename>` and
    returns — no exception; on success streams the fixed tree pattern into
    the file, closes it, and prints `Shrubbery has been planted at <target>`.
    The function returns `void` and throws nothing on either path. -/
def ShrubberyCreationForm.executeAction (target : String) (openOk : Bool) :
    ActionEffects × Except FormError Unit :=
  let filename := target ++ "_shrubbery"
  if openOk = false then
    (⟨[], ["Error: Could not create file " ++ filename]⟩, .ok ())
  else
    (⟨[(filename, shrubberyTreeContent)],
      ["Shrubbery has been planted at " ++ target]⟩, .ok ())

/-- `RobotomyRequestForm::executeAction` of `RobotomyRequestForm.cpp` lines
    44-60: prints the drilling noises, seeds the generator, then draws one
    value from the RandomSource collaborator (`randValue` is the drawn
    `rand()` value); if `randValue % 2 == 0` prints
    `<target> has been robotomized successfully!`, otherwise prints
    `Robotomy of <target> has failed!`.  Both branches return normally. -/
def RobotomyRequestForm.executeAction (target : String) (randValue : Nat) :
    ActionEffects × Except FormError Unit :=
  if randValue % 2 = 0 then
    (⟨[], ["* DRILLING NOISES * BZZZZZZT * WHIRRRRR * CLANK *",
           target ++ " has been robotomized successfully!"]⟩, .ok ())
  else
    (⟨[], ["* DRILLING NOISES * BZZZZZZT * WHIRRRRR * CLANK *",
           "Robotomy of " ++ target ++ " has failed!"]⟩, .ok ())

/-- `PresidentialPardonForm::executeAction` of `PresidentialPardonForm.cpp`
    lines 44-47: prints `<target> has been pardoned by Zaphod Beeblebrox.`
    and returns. -/
def PresidentialPardonForm.executeAction (target : String) :
    ActionEffects × Except FormError Unit :=
  (⟨[], [target ++ " has been pardoned by Zaphod Beeblebrox."]⟩, .ok ())

/-- C1: for every document and actor, `beSigned` succeeds and sets the signed
    flag iff `grade ≤ gradeToSign`, and fails `GradeTooLow` iff
    `grade > gradeToSign`; the threshold is re-checked on every call, so a
    second sign by an eligible actor is a no-op success, and a sign attempt by
    an ineligible actor on an already-signed document still fails
    `GradeTooLow` (the error path returns no mutated document, so the signed
    flag stands). -/
theorem beSigned_spec (f : AForm) (b : Bureaucrat) :
    (AForm.beSigned f b = .ok { f with isSigned := true } ↔ b.grade ≤ f.gradeToSign) ∧
    (AForm.beSigned f b = .error .GradeTooLow ↔ b.grade > f.gradeToSign) ∧
    (f.isSigned = true → b.grade ≤ f.gradeToSign → AForm.beSigned f b = .ok f) ∧
    (f.isSigned = true → b.grade > f.gradeToSign → AForm.beSigned f b = .error .GradeTooLow) := by
  rcases f with ⟨n, s, gs, ge⟩
  unfold AForm.beSigned
  dsimp only
  by_cases h : b.grade > gs
  · rw [if_pos h]
    exact ⟨⟨fun hc => Except.noConfusion hc, fun hle => absurd hle (by omega)⟩,
      ⟨fun _ => h, fun _ => rfl⟩,
      fun _ hle => absurd hle (by omega),
      fun _ _ => rfl⟩
  · rw [if_neg h]
    exact ⟨⟨fun _ => by omega, fun _ => rfl⟩,
      ⟨fun hc => Except.noConfusion hc, fun hgt => absurd hgt h⟩,
      fun hs _ => by cases hs; rfl,
      fun _ hgt => absurd hgt h⟩

/-- C1 witness: a signed document with signing threshold 50 re-signed by an
    eligible actor of grade 30 is a no-op success. -/
theorem beSigned_spec_witness :
    AForm.beSigned ⟨"Tax Form", true, 50, 40⟩ ⟨"Alice", 30⟩ = .ok ⟨"Tax Form", true, 50, 40⟩ :=
  (beSigned_spec ⟨"Tax Form", true, 50, 40⟩ ⟨"Alice", 30⟩).2.2.1 rfl (by decide)

/-- C2: `execute` fails `FormNotSigned` whenever the document is unsigned,
    regardless of the executor's grade (this check precedes the grade check);
    on a signed document it fails `GradeTooLow` when
    `grade > gradeToExecute` (and, whenever the action itself is not an
    error, exactly then); otherwise it returns the variant's `executeAction`
    result unchanged. -/
theorem execute_spec {α : Type} (f : AForm) (b : Bureaucrat) (pa : Except FormError α) :
    (f.isSigned = false → AForm.execute f b pa = .error .FormNotSigned) ∧
    (f.isSigned = true → b.grade > f.gradeToExecute →
      AForm.execute f b pa = .error .GradeTooLow) ∧
    (f.isSigned = true → b.grade ≤ f.gradeToExecute → AForm.execute f b pa = pa) ∧
    (f.isSigned = true → (∀ e, pa ≠ .error e) →
      (AForm.execute f b pa = .error .GradeTooLow ↔ b.grade > f.gradeToExecute)) := by
  refine ⟨fun hu => ?_, fun hs hg => ?_, fun hs hg => ?_, fun hs hpa => ?_⟩
  · unfold AForm.execute
    rw [if_pos hu]
  · unfold AForm.execute
    rw [if_neg (by simp [hs]), if_pos hg]
  · unfold AForm.execute
    rw [if_neg (by simp [hs]), if_neg (by omega)]
  · unfold AForm.execute
    rw [if_neg (by simp [hs])]
    by_cases hg : b.grade > f.gradeToExecute
    · rw [if_pos hg]
      exact ⟨fun _ => hg, fun _ => rfl⟩
    · rw [if_neg hg]
      exact ⟨fun hc => absurd hc (hpa _), fun hc => absurd hc hg⟩

/-- C2 witness: an unsigned document with execution threshold 40 refuses to
    execute even for the top-authority actor of grade 1. -/
theorem execute_spec_witness :
    AForm.execute ⟨"Tax Form", false, 50, 40⟩ ⟨"Boss", 1⟩ (Except.ok ()) =
      .error .FormNotSigned :=
  (execute_spec ⟨"Tax Form", false, 50, 40⟩ ⟨"Boss", 1⟩ (Except.ok ())).1 rfl

/-- C3 counterexample: copy assignment does reset the signed flag — assigning
    an unsigned document onto a signed one (the code's `operator=` copies
    `other._signed`) leaves the target unsigned, contradicting "no operation
    of the public interface (including copy assignment) ever resets signed
    from true back to false". -/
theorem assign_resets_signed_flag :
    (AForm.assign ⟨"Tax Form", true, 50, 40⟩ ⟨"Blank Form", false, 50, 40⟩).isSigned
      = false := rfl

/-- C3 (amended): the signed flag is false at construction and a successful
    `beSigned` is the only operation that sets it true (a failed sign yields
    an error and no document) — except copy assignment, which overwrites the
    flag with the source document's flag and can therefore reset it. -/
theorem signed_flag_lifecycle (name : String) (s e : Int) (f g : AForm) (b : Bureaucrat) :
    (∀ f0, AForm.construct name s e = .ok f0 → f0.isSigned = false) ∧
    (∀ f1, AForm.beSigned f b = .ok f1 → f1.isSigned = true) ∧
    (AForm.assign f g).isSigned = g.isSigned := by
  refine ⟨fun f0 h0 => ?_, fun f1 h1 => ?_, rfl⟩
  · unfold AForm.construct at h0
    split at h0
    · cases h0
    · split at h0
      · cases h0
      · cases h0; rfl
  · unfold AForm.beSigned at h1
    split at h1
    · cases h1
    · cases h1; rfl

/-- C3 (amended) witness: a freshly constructed document is unsigned, a
    successful sign marks it signed, and assignment transfers the source's
    flag. -/
theorem signed_flag_lifecycle_witness :
    (∀ f0, AForm.construct "Tax Form" 50 40 = .ok f0 → f0.isSigned = false) ∧
    (AForm.assign ⟨"Tax Form", true, 50, 40⟩ ⟨"Blank Form", false, 50, 40⟩).isSigned
      = false :=
  ⟨(signed_flag_lifecycle "Tax Form" 50 40 ⟨"Tax Form", true, 50, 40⟩
      ⟨"Blank Form", false, 50, 40⟩ ⟨"Alice", 30⟩).1,
   (signed_flag_lifecycle "Tax Form" 50 40 ⟨"Tax Form", true, 50, 40⟩
      ⟨"Blank Form", false, 50, 40⟩ ⟨"Alice", 30⟩).2.2⟩

/-- C10: copy assignment copies only the signed flag — the target keeps its
    own name and both thresholds while its signed flag becomes the source's;
    in particular assigning an unsigned document onto a signed one clears the
    flag. -/
theorem assign_frame (a b : AForm) :
    (AForm.assign a b).name = a.name ∧
    (AForm.assign a b).gradeToSign = a.gradeToSign ∧
    (AForm.assign a b).gradeToExecute = a.gradeToExecute ∧
    (AForm.assign a b).isSigned = b.isSigned :=
  ⟨rfl, rfl, rfl, rfl⟩

/-- C4: an actor is constructible iff its grade lies in `[1, 150]`
    (`GradeTooHigh` below 1, `GradeTooLow` above 150); `incrementGrade` fails
    `GradeTooHigh` exactly when `grade - 1` would drop below 1 and otherwise
    commits `grade - 1`; `decrementGrade` fails `GradeTooLow` exactly when
    `grade + 1` would exceed 150 and otherwise commits `grade + 1`; and the
    invariant `1 ≤ grade ≤ 150` is established by construction and preserved
    by both mutators. -/
theorem bureaucrat_grade_spec (name : String) (g : Int) (b : Bureaucrat) :
    ((∃ a, Bureaucrat.construct name g = .ok a) ↔ 1 ≤ g ∧ g ≤ 150) ∧
    (g < 1 → Bureaucrat.construct name g = .error .GradeTooHigh) ∧
    (g > 150 → Bureaucrat.construct name g = .error .GradeTooLow) ∧
    (b.grade - 1 < 1 → b.incrementGrade = .error .GradeTooHigh) ∧
    (1 ≤ b.grade - 1 → b.incrementGrade = .ok { b with grade := b.grade - 1 }) ∧
    (b.grade + 1 > 150 → b.decrementGrade = .error .GradeTooLow) ∧
    (b.grade + 1 ≤ 150 → b.decrementGrade = .ok { b with grade := b.grade + 1 }) ∧
    (∀ a, Bureaucrat.construct name g = .ok a → 1 ≤ a.grade ∧ a.grade ≤ 150) ∧
    (1 ≤ b.grade ∧ b.grade ≤ 150 →
      ∀ b1, b.incrementGrade = .ok b1 → 1 ≤ b1.grade ∧ b1.grade ≤ 150) ∧
    (1 ≤ b.grade ∧ b.grade ≤ 150 →
      ∀ b1, b.decrementGrade = .ok b1 → 1 ≤ b1.grade ∧ b1.grade ≤ 150) := by
  refine ⟨⟨fun hex => ?_, fun hin => ?_⟩, fun hlt => ?_, fun hgt => ?_, fun h => ?_,
    fun h => ?_, fun h => ?_, fun h => ?_, fun a ha => ?_, fun hinv b1 hb1 => ?_,
    fun hinv b1 hb1 => ?_⟩
  · obtain ⟨a, ha⟩ := hex
    unfold Bureaucrat.construct at ha
    split at ha
    · cases ha
    · split at ha
      · cases ha
      · omega
  · exact ⟨⟨name, g⟩, by unfold Bureaucrat.construct; rw [if_neg (by omega), if_neg (by omega)]⟩
  · unfold Bureaucrat.construct
    rw [if_pos hlt]
  · unfold Bureaucrat.construct
    rw [if_neg (by omega), if_pos hgt]
  · unfold Bureaucrat.incrementGrade
    rw [if_pos h]
  · unfold Bureaucrat.incrementGrade
    rw [if_neg (by omega)]
  · unfold Bureaucrat.decrementGrade
    rw [if_pos h]
  · unfold Bureaucrat.decrementGrade
    rw [if_neg (by omega)]
  · unfold Bureaucrat.construct at ha
    split at ha
    · cases ha
    · split at ha
      · cases ha
      · cases ha
        dsimp only
        omega
  · unfold Bureaucrat.incrementGrade at hb1
    split at hb1
    · cases hb1
    · cases hb1
      dsimp only
      omega
  · unfold Bureaucrat.decrementGrade at hb1
    split at hb1
    · cases hb1
    · cases hb1
      dsimp only
      omega

/-- C4 witness: grade 0 and 151 are rejected at construction with the
    respective errors, increment at grade 1 and decrement at grade 150 fail,
    and increment at grade 30 commits grade 29, staying inside `[1, 150]`. -/
theorem bureaucrat_grade_spec_witness :
    Bureaucrat.construct "Zero" 0 = .error .GradeTooHigh ∧
    Bureaucrat.construct "Over" 151 = .error .GradeTooLow ∧
    Bureaucrat.incrementGrade ⟨"Top", 1⟩ = .error .GradeTooHigh ∧
    Bureaucrat.decrementGrade ⟨"Bottom", 150⟩ = .error .GradeTooLow ∧
    Bureaucrat.incrementGrade ⟨"Alice", 30⟩ = .ok ⟨"Alice", 29⟩ :=
  ⟨(bureaucrat_grade_spec "Zero" 0 ⟨"Top", 1⟩).2.1 (by decide),
   (bureaucrat_grade_spec "Over" 151 ⟨"Top", 1⟩).2.2.1 (by decide),
   (bureaucrat_grade_spec "Top" 1 ⟨"Top", 1⟩).2.2.2.1 (by decide),
   (bureaucrat_grade_spec "Bottom" 150 ⟨"Bottom", 150⟩).2.2.2.2.2.1 (by decide),
   (bureaucrat_grade_spec "Alice" 30 ⟨"Alice", 30⟩).2.2.2.2.1 (by decide)⟩

/-- C5: a document is constructible iff both thresholds lie in `[1, 150]`;
    a threshold below 1 raises `GradeTooHigh` (this check runs first), and
    otherwise a threshold above 150 raises `GradeTooLow`; construction stores
    the given name and thresholds, and neither `beSigned` nor copy assignment
    ever changes a document's name or thresholds. -/
theorem aform_construct_spec (name : String) (s e : Int) (f g : AForm) (b : Bureaucrat) :
    ((∃ f0, AForm.construct name s e = .ok f0) ↔
      1 ≤ s ∧ s ≤ 150 ∧ 1 ≤ e ∧ e ≤ 150) ∧
    (s < 1 ∨ e < 1 → AForm.construct name s e = .error .GradeTooHigh) ∧
    (¬(s < 1 ∨ e < 1) → s > 150 ∨ e > 150 →
      AForm.construct name s e = .error .GradeTooLow) ∧
    (∀ f0, AForm.construct name s e = .ok f0 →
      f0.name = name ∧ f0.gradeToSign = s ∧ f0.gradeToExecute = e) ∧
    (∀ f1, AForm.beSigned f b = .ok f1 →
      f1.name = f.name ∧ f1.gradeToSign = f.gradeToSign ∧
        f1.gradeToExecute = f.gradeToExecute) ∧
    ((AForm.assign f g).name = f.name ∧
      (AForm.assign f g).gradeToSign = f.gradeToSign ∧
      (AForm.assign f g).gradeToExecute = f.gradeToExecute) := by
  refine ⟨⟨fun hex => ?_, fun hin => ?_⟩, fun hlow => ?_, fun hnlow hhigh => ?_,
    fun f0 h0 => ?_, fun f1 h1 => ?_, ⟨rfl, rfl, rfl⟩⟩
  · obtain ⟨f0, h0⟩ := hex
    unfold AForm.construct at h0
    split at h0
    · cases h0
    · split at h0
      · cases h0
      · omega
  · refine ⟨⟨name, false, s, e⟩, ?_⟩
    unfold AForm.construct
    rw [if_neg (by omega), if_neg (by omega)]
  · unfold AForm.construct
    rw [if_pos hlow]
  · unfold AForm.construct
    rw [if_neg hnlow, if_pos hhigh]
  · unfold AForm.construct at h0
    split at h0
    · cases h0
    · split at h0
      · cases h0
      · cases h0
        exact ⟨rfl, rfl, rfl⟩
  · unfold AForm.beSigned at h1
    split at h1
    · cases h1
    · cases h1
      exact ⟨rfl, rfl, rfl⟩

/-- C5 witness: thresholds (50, 40) are accepted, a threshold below 1 raises
    `GradeTooHigh` even when the other exceeds 150, thresholds above 150 raise
    `GradeTooLow`, and the stored fields equal the constructor arguments. -/
theorem aform_construct_spec_witness :
    (∃ f0, AForm.construct "Tax Form" 50 40 = .ok f0) ∧
    AForm.construct "Bad Form" 0 200 = .error .GradeTooHigh ∧
    AForm.construct "Low Form" 151 40 = .error .GradeTooLow ∧
    (∀ f0, AForm.construct "Tax Form" 50 40 = .ok f0 →
      f0.name = "Tax Form" ∧ f0.gradeToSign = 50 ∧ f0.gradeToExecute = 40) :=
  ⟨(aform_construct_spec "Tax Form" 50 40 ⟨"f", false, 50, 40⟩
      ⟨"g", false, 50, 40⟩ ⟨"Alice", 30⟩).1.2 (by decide),
   (aform_construct_spec "Bad Form" 0 200 ⟨"f", false, 50, 40⟩
      ⟨"g", false, 50, 40⟩ ⟨"Alice", 30⟩).2.1 (by decide),
   (aform_construct_spec "Low Form" 151 40 ⟨"f", false, 50, 40⟩
      ⟨"g", false, 50, 40⟩ ⟨"Alice", 30⟩).2.2.1 (by decide) (by decide),
   (aform_construct_spec "Tax Form" 50 40 ⟨"f", false, 50, 40⟩
      ⟨"g", false, 50, 40⟩ ⟨"Alice", 30⟩).2.2.2.1⟩

/-- C6: `makeForm` returns the freshly constructed variant carrying the given
    target exactly for the three case-sensitive keys, and throws
    `FormNotFound` for every other string (the empty string included, as the
    witness shows). -/
theorem makeForm_spec (kind target : String) :
    (kind = "shrubbery creation" → Intern.makeForm kind target =
      .ok ⟨.shrubberyCreation, ⟨"Shrubbery Creation Form", false, 145, 137⟩, target⟩) ∧
    (kind = "robotomy request" → Intern.makeForm kind target =
      .ok ⟨.robotomyRequest, ⟨"Robotomy Request Form", false, 72, 45⟩, target⟩) ∧
    (kind = "presidential pardon" → Intern.makeForm kind target =
      .ok ⟨.presidentialPardon, ⟨"Presidential Pardon Form", false, 25, 5⟩, target⟩) ∧
    (kind ≠ "shrubbery creation" → kind ≠ "robotomy request" →
      kind ≠ "presidential pardon" →
      Intern.makeForm kind target = .error .FormNotFound) := by
  refine ⟨fun h => ?_, fun h => ?_, fun h => ?_, fun h1 h2 h3 => ?_⟩
  · subst h
    rfl
  · subst h
    rfl
  · subst h
    rfl
  · unfold Intern.makeForm
    rw [if_neg h1, if_neg h2, if_neg h3]

/-- C6 witness: the key "robotomy request" yields a robotomy request carrying
    its target, while the empty string and a bogus key fail `FormNotFound`. -/
theorem makeForm_spec_witness :
    Intern.makeForm "robotomy request" "Bender" =
      .ok ⟨.robotomyRequest, ⟨"Robotomy Request Form", false, 72, 45⟩, "Bender"⟩ ∧
    Intern.makeForm "" "x" = .error .FormNotFound ∧
    Intern.makeForm "Robotomy Request" "x" = .error .FormNotFound :=
  ⟨(makeForm_spec "robotomy request" "Bender").2.1 rfl,
   (makeForm_spec "" "x").2.2.2 (by decide) (by decide) (by decide),
   (makeForm_spec "Robotomy Request" "x").2.2.2 (by decide) (by decide) (by decide)⟩

/-- C7: for every target, the three variant constructors fix the threshold
    pairs (145, 137), (72, 45) and (25, 5), both when built directly and when
    built through the factory keys. -/
theorem variant_thresholds (target : String) :
    (ShrubberyCreationForm.construct target).map
      (fun v => (v.base.gradeToSign, v.base.gradeToExecute)) = .ok (145, 137) ∧
    (RobotomyRequestForm.construct target).map
      (fun v => (v.base.gradeToSign, v.base.gradeToExecute)) = .ok (72, 45) ∧
    (PresidentialPardonForm.construct target).map
      (fun v => (v.base.gradeToSign, v.base.gradeToExecute)) = .ok (25, 5) ∧
    (Intern.makeForm "shrubbery creation" target).map
      (fun v => (v.base.gradeToSign, v.base.gradeToExecute)) = .ok (145, 137) ∧
    (Intern.makeForm "robotomy request" target).map
      (fun v => (v.base.gradeToSign, v.base.gradeToExecute)) = .ok (72, 45) ∧
    (Intern.makeForm "presidential pardon" target).map
      (fun v => (v.base.gradeToSign, v.base.gradeToExecute)) = .ok (25, 5) :=
  ⟨rfl, rfl, rfl, rfl, rfl, rfl⟩

/-- C8 counterexample: when the ArtifactWriter collaborator fails (the file
    does not open), `executeAction` on target "garden" does not fail — it
    returns normally, so the failure is not propagated to the caller. -/
theorem shrubbery_no_propagation :
    ¬ ∃ err, (ShrubberyCreationForm.executeAction "garden" false).2 =
      Except.error err := by
  rintro ⟨err, herr⟩
  rw [show (ShrubberyCreationForm.executeAction "garden" false).2 =
    Except.ok () from rfl] at herr
  exact Except.noConfusion herr

/-- C8 (amended): `executeAction` always returns normally; when the
    collaborator's open succeeds it issues exactly one write, keyed
    `target ++ "_shrubbery"`, with the fixed textual pattern, and reports the
    planting on the console; when the collaborator fails it issues no write
    and reports the failure on the console instead of raising it. -/
theorem shrubbery_executeAction_spec (target : String) (openOk : Bool) :
    (ShrubberyCreationForm.executeAction target openOk).2 = .ok () ∧
    (ShrubberyCreationForm.executeAction target openOk).1.writes =
      (if openOk then [(target ++ "_shrubbery", shrubberyTreeContent)] else []) ∧
    (ShrubberyCreationForm.executeAction target openOk).1.console =
      (if openOk then ["Shrubbery has been planted at " ++ target]
        else ["Error: Could not create file " ++ (target ++ "_shrubbery")]) := by
  cases openOk
  · exact ⟨rfl, rfl, rfl⟩
  · exact ⟨rfl, rfl, rfl⟩

/-- C9: for every target and every value the RandomSource can return,
    `executeAction` of the robotomy variant returns normally (the failed
    outcome is not an error), and its console output reports exactly one of
    the two outcomes — the success message when the drawn value is even, the
    failure message otherwise — and those two messages are distinct. -/
theorem robotomy_executeAction_spec (target : String) (randValue : Nat) :
    (RobotomyRequestForm.executeAction target randValue).2 = .ok () ∧
    ((randValue % 2 = 0 ∧
        (RobotomyRequestForm.executeAction target randValue).1.console =
          ["* DRILLING NOISES * BZZZZZZT * WHIRRRRR * CLANK *",
           target ++ " has been robotomized successfully!"]) ∨
      (randValue % 2 ≠ 0 ∧
        (RobotomyRequestForm.executeAction target randValue).1.console =
          ["* DRILLING NOISES * BZZZZZZT * WHIRRRRR * CLANK *",
           "Robotomy of " ++ target ++ " has failed!"])) ∧
    target ++ " has been robotomized successfully!" ≠
      "Robotomy of " ++ target ++ " has failed!" := by
  refine ⟨?_, ?_, ?_⟩
  · unfold RobotomyRequestForm.executeAction
    by_cases h : randValue % 2 = 0
    · rw [if_pos h]
    · rw [if_neg h]
  · by_cases h : randValue % 2 = 0
    · exact Or.inl ⟨h, by unfold RobotomyRequestForm.executeAction; rw [if_pos h]⟩
    · exact Or.inr ⟨h, by unfold RobotomyRequestForm.executeAction; rw [if_neg h]⟩
  · intro hc
    have hlen := congrArg String.length hc
    rw [String.length_append, String.length_append, String.length_append] at hlen
    have h1 : (" has been robotomized successfully!").length = 35 := rfl
    have h2 : ("Robotomy of ").length = 12 := rfl
    have h3 : (" has failed!").length = 12 := rfl
    omega
